import Mathlib

/-!
Verification development for the data-link-layer protocol engine
(`capa-enlace`): a shallow embedding of the frame codec (bit stuffing,
CRC-16-CCITT, frame build/parse), the sliding-window manager, the
acknowledgment engine and the connection manager, translated from the
JavaScript sources, together with theorems settling the specification
claims.  Byte buffers are modelled as `List Nat` (each element a byte
value), JavaScript `Map`s as association lists, and the event-driven
state as explicit state-passing.  Timers are modelled by their firing
events; wall-clock timestamps carried only for logging are dropped.
-/

namespace DLL

/-! ### Constants (src/constants.js) -/

def FLAG : Nat := 0x7e
def ESC : Nat := 0x7d

namespace FrameType

def DATA : Nat := 0x01
def ACK : Nat := 0x02
def NAK : Nat := 0x03
def CONN : Nat := 0x04
def CONN_ACK : Nat := 0x05
def DISC : Nat := 0x06
def DISC_ACK : Nat := 0x07
def HEARTBEAT : Nat := 0x08

end FrameType

/-- `Object.values(FrameType)` in enumeration order. -/
def frameTypeValues : List Nat :=
  [FrameType.DATA, FrameType.ACK, FrameType.NAK, FrameType.CONN,
   FrameType.CONN_ACK, FrameType.DISC, FrameType.DISC_ACK, FrameType.HEARTBEAT]

def WINDOW_SIZE : Nat := 8
def MAX_SEQ_NUM : Nat := 15
def MAX_RETRIES : Nat := 3
def MAX_DATA : Nat := 1024
def CRC_POLYNOMIAL : Nat := 0x1021

/-- `Utils.nextSeqNum`: increment modulo 16. -/
def nextSeqNum (seqNum : Nat) : Nat := (seqNum + 1) % (MAX_SEQ_NUM + 1)

/-- `Utils.seqNumDiff`: wrap-around difference, folded into `-7 .. 8`.
The JavaScript computes `(a - b + 16) % 16` and subtracts 16 when the
result exceeds 8; for `a b : Nat` with `b ≤ 15` the first step equals
`(a + 16 - b) % 16` over `Nat`. -/
def seqNumDiff (a b : Nat) : Int :=
  let diff := (a + (MAX_SEQ_NUM + 1) - b) % (MAX_SEQ_NUM + 1)
  if (MAX_SEQ_NUM + 1) / 2 < diff then (diff : Int) - (MAX_SEQ_NUM + 1) else (diff : Int)

/-- `Utils.inWindow`. -/
def inWindow (seqNum base windowSize : Nat) : Bool :=
  let diff := seqNumDiff seqNum base
  decide (0 ≤ diff ∧ diff < (windowSize : Int))

/-! ### Bit stuffing (src/framing/bitStuffing.js) -/

/-- `bitStuff`: escape every FLAG byte as `ESC 0x5e` and every ESC byte
as `ESC 0x5d`; all other bytes pass through unchanged. -/
def bitStuff : List Nat → List Nat
  | [] => []
  | b :: rest =>
    if b = FLAG then ESC :: 0x5e :: bitStuff rest
    else if b = ESC then ESC :: 0x5d :: bitStuff rest
    else b :: bitStuff rest

/-- `bitUnstuff`: inverse of `bitStuff`; `none` models the
`success: false` results (incomplete escape, invalid escape sequence,
bare FLAG inside the data). -/
def bitUnstuff : List Nat → Option (List Nat)
  | [] => some []
  | b :: rest =>
    if b = ESC then
      match rest with
      | [] => none
      | nb :: rest2 =>
        if nb = 0x5e then (bitUnstuff rest2).map (fun l => FLAG :: l)
        else if nb = 0x5d then (bitUnstuff rest2).map (fun l => ESC :: l)
        else none
    else if b = FLAG then none
    else (bitUnstuff rest).map (fun l => b :: l)

/-! ### CRC-16-CCITT (src/errorControl/crc.js) -/

/-- One iteration of the table-generation inner loop. -/
def crcTableStep (crc : Nat) : Nat :=
  if crc &&& 0x8000 ≠ 0 then (crc <<< 1) ^^^ CRC_POLYNOMIAL else crc <<< 1

/-- Entry `i` of the 256-element lookup table: eight shift-xor rounds on
`i <<< 8`, masked to 16 bits. -/
def crcTableEntry (i : Nat) : Nat :=
  (crcTableStep^[8] (i <<< 8)) &&& 0xffff

/-- The precomputed lookup table of `generateCrcTable`. -/
def crcTable : List Nat := (List.range 256).map crcTableEntry

/-- One byte of `CRC16.calculate`'s loop. -/
def crcStep (crc byte : Nat) : Nat :=
  let tableIndex := ((crc >>> 8) ^^^ byte) &&& 0xff
  ((crc <<< 8) ^^^ crcTable.getD tableIndex 0) &&& 0xffff

/-- `CRC16.calculate` with the default initial value `0xffff` and final
inversion. -/
def crcCalculate (data : List Nat) : Nat :=
  (data.foldl crcStep 0xffff) ^^^ 0xffff

/-- `CRC16.addCrc`: append the 16-bit CRC big-endian (high byte first). -/
def addCrc (data : List Nat) : List Nat :=
  let crc := crcCalculate data
  data ++ [(crc >>> 8) &&& 0xff, crc &&& 0xff]

/-- Result record of `CRC16.extractAndValidate`. -/
structure CrcResult where
  valid : Bool
  data : List Nat
  crc : Nat
  calculatedCrc : Nat
deriving DecidableEq

/-- `CRC16.extractAndValidate`: split the last two bytes as
`(buf[-2] <<< 8) ||| buf[-1]` and compare against the CRC of the prefix.
The too-short branch reports `valid := false` with empty data. -/
def extractAndValidate (dataWithCrc : List Nat) : CrcResult :=
  if dataWithCrc.length < 2 then
    { valid := false, data := [], crc := 0, calculatedCrc := 0 }
  else
    let dataLength := dataWithCrc.length - 2
    let data := dataWithCrc.take dataLength
    let receivedCrc := (dataWithCrc.getD dataLength 0) <<< 8 ||| dataWithCrc.getD (dataLength + 1) 0
    { valid := crcCalculate data == receivedCrc
      data := data
      crc := receivedCrc
      calculatedCrc := crcCalculate data }

/-! ### Frame codec (src/framing/frameBuilder.js) -/

/-- `FrameBuilder.buildFrame`; the three validation throws are modelled
as `none`. -/
def buildFrame (type seqNum : Nat) (data : List Nat) : Option (List Nat) :=
  if ¬ frameTypeValues.contains type then none
  else if 15 < seqNum then none
  else if MAX_DATA < data.length then none
  else
    let payload := type :: (seqNum &&& 0x0f) :: data
    let payloadWithCrc := addCrc payload
    let stuffedPayload := bitStuff payloadWithCrc
    some (FLAG :: stuffedPayload ++ [FLAG])

structure ParsedFrame where
  type : Nat
  seqNum : Nat
  data : List Nat
deriving DecidableEq

inductive ParseError where
  | tooSmall
  | badFlags
  | stuffingError
  | payloadTooSmall
  | crcError
  | validatedTooSmall
  | unknownType
deriving DecidableEq

/-- `FrameBuilder.parseFrame`, preserving the order of its checks.  The
`unstuffResult` object's `success` field is `isSome`, its `data` field
is `getD []`. -/
def parseFrame (rawFrame : List Nat) : Except ParseError ParsedFrame :=
  if rawFrame.length < 4 then .error .tooSmall
  else if ¬ (rawFrame.getD 0 0 = FLAG ∧ rawFrame.getD (rawFrame.length - 1) 0 = FLAG) then
    .error .badFlags
  else
    let stuffedPayload := (rawFrame.drop 1).dropLast
    let unstuffResult := bitUnstuff stuffedPayload
    if unstuffResult.isNone then .error .stuffingError
    else
      let payload := unstuffResult.getD []
      if payload.length < 4 then .error .payloadTooSmall
      else
        let crcResult := extractAndValidate payload
        if crcResult.valid = false then .error .crcError
        else
          let validPayload := crcResult.data
          if validPayload.length < 2 then .error .validatedTooSmall
          else
            let controlField := validPayload.getD 0 0
            let seqField := validPayload.getD 1 0 &&& 0x0f
            let data := validPayload.drop 2
            if frameTypeValues.contains controlField then
              .ok { type := controlField, seqNum := seqField, data := data }
            else .error .unknownType

/-- Whether `parseFrame` reported `success: true`. -/
def parseSuccess (rawFrame : List Nat) : Bool :=
  match parseFrame rawFrame with
  | .ok _ => true
  | .error _ => false

/-- `FrameBuilder.createDataFrame`. -/
def createDataFrame (seqNum : Nat) (data : List Nat) : Option (List Nat) :=
  buildFrame FrameType.DATA seqNum data

end DLL

namespace DLL

/-! ### Bit-stuffing lemmas -/

/-- Unfolding lemma: an escaped FLAG at the head of the input. -/
theorem bitUnstuff_cons_esc_5e (l : List Nat) :
    bitUnstuff (ESC :: 0x5e :: l) = (bitUnstuff l).map (fun r => FLAG :: r) := by
  simp [bitUnstuff, ESC, FLAG]

/-- Unfolding lemma: an escaped ESC at the head of the input. -/
theorem bitUnstuff_cons_esc_5d (l : List Nat) :
    bitUnstuff (ESC :: 0x5d :: l) = (bitUnstuff l).map (fun r => ESC :: r) := by
  simp [bitUnstuff, ESC, FLAG]

/-- Unfolding lemma: a plain byte at the head of the input. -/
theorem bitUnstuff_cons_other {b : Nat} (l : List Nat) (he : ¬ b = ESC) (hf : ¬ b = FLAG) :
    bitUnstuff (b :: l) = (bitUnstuff l).map (fun r => b :: r) := by
  cases l with
  | nil => simp [bitUnstuff, he, hf]
  | cons c l2 => simp [bitUnstuff, he, hf]

/-- Unfolding lemma: stuffing a FLAG byte. -/
theorem bitStuff_cons_flag (rest : List Nat) :
    bitStuff (FLAG :: rest) = ESC :: 0x5e :: bitStuff rest := by
  simp [bitStuff]

/-- Unfolding lemma: stuffing an ESC byte. -/
theorem bitStuff_cons_esc (rest : List Nat) :
    bitStuff (ESC :: rest) = ESC :: 0x5d :: bitStuff rest := by
  simp [bitStuff, ESC, FLAG]

/-- Unfolding lemma: stuffing a plain byte. -/
theorem bitStuff_cons_other {b : Nat} (rest : List Nat) (hf : ¬ b = FLAG) (he : ¬ b = ESC) :
    bitStuff (b :: rest) = b :: bitStuff rest := by
  simp [bitStuff, hf, he]

/-- The stuffed output never contains a bare FLAG byte. -/
theorem bitStuff_no_flag : ∀ x : List Nat, FLAG ∉ bitStuff x := by
  intro x
  induction x with
  | nil => simp [bitStuff]
  | cons b rest ih =>
    by_cases hf : b = FLAG
    · subst hf
      rw [bitStuff_cons_flag]
      simp only [List.mem_cons]
      push_neg
      exact ⟨by decide, by decide, ih⟩
    · by_cases he : b = ESC
      · subst he
        rw [bitStuff_cons_esc]
        simp only [List.mem_cons]
        push_neg
        exact ⟨by decide, by decide, ih⟩
      · rw [bitStuff_cons_other rest hf he]
        simp only [List.mem_cons]
        push_neg
        exact ⟨fun h => hf h.symm, ih⟩

/-- Unstuffing inverts stuffing on every byte list. -/
theorem bitUnstuff_bitStuff : ∀ x : List Nat, bitUnstuff (bitStuff x) = some x := by
  intro x
  induction x with
  | nil => rfl
  | cons b rest ih =>
    by_cases hf : b = FLAG
    · subst hf
      rw [bitStuff_cons_flag, bitUnstuff_cons_esc_5e, ih]
      rfl
    · by_cases he : b = ESC
      · subst he
        rw [bitStuff_cons_esc, bitUnstuff_cons_esc_5d, ih]
        rfl
      · rw [bitStuff_cons_other rest hf he, bitUnstuff_cons_other _ he hf, ih]
        rfl

/-- Unstuffing never lengthens the buffer: every escape pair shrinks to
one byte and every plain byte is copied. -/
theorem bitUnstuff_length_le : ∀ (x out : List Nat), bitUnstuff x = some out →
    out.length ≤ x.length
  | [], out, h => by
    simp [bitUnstuff] at h
    simp [← h]
  | b :: rest, out, h => by
    by_cases he : b = ESC
    · subst he
      cases rest with
      | nil => simp [bitUnstuff] at h
      | cons nb rest2 =>
        by_cases h5e : nb = 0x5e
        · subst h5e
          rw [bitUnstuff_cons_esc_5e, Option.map_eq_some'] at h
          obtain ⟨a, ha, hout⟩ := h
          have ih := bitUnstuff_length_le rest2 a ha
          rw [← hout]
          simp only [List.length_cons]
          omega
        · by_cases h5d : nb = 0x5d
          · subst h5d
            rw [bitUnstuff_cons_esc_5d, Option.map_eq_some'] at h
            obtain ⟨a, ha, hout⟩ := h
            have ih := bitUnstuff_length_le rest2 a ha
            rw [← hout]
            simp only [List.length_cons]
            omega
          · simp [bitUnstuff, h5e, h5d] at h
    · by_cases hf : b = FLAG
      · subst hf
        cases rest with
        | nil => simp [bitUnstuff, FLAG, ESC] at h
        | cons nb rest2 => simp [bitUnstuff, FLAG, ESC] at h
      · rw [bitUnstuff_cons_other rest he hf, Option.map_eq_some'] at h
        obtain ⟨a, ha, hout⟩ := h
        have ih := bitUnstuff_length_le rest a ha
        rw [← hout]
        simp only [List.length_cons]
        omega

/-! ### CRC lemmas -/

/-- Each CRC folding step stays below `2 ^ 16` thanks to the final mask. -/
theorem crcStep_lt (crc byte : Nat) : crcStep crc byte < 65536 := by
  have h : crcStep crc byte ≤ 0xffff := Nat.and_le_right
  omega

/-- The CRC register stays below `2 ^ 16` throughout the fold. -/
theorem foldl_crcStep_lt : ∀ (data : List Nat) (crc : Nat), crc < 65536 →
    data.foldl crcStep crc < 65536
  | [], crc, h => h
  | b :: rest, crc, _ => foldl_crcStep_lt rest (crcStep crc b) (crcStep_lt crc b)

/-- `crcCalculate` always returns a 16-bit value. -/
theorem crcCalculate_lt (data : List Nat) : crcCalculate data < 65536 := by
  have h16 : (65536 : Nat) = 2 ^ 16 := by norm_num
  have h1 : data.foldl crcStep 0xffff < 65536 := foldl_crcStep_lt data 0xffff (by norm_num)
  have h2 : (0xffff : Nat) < 65536 := by norm_num
  rw [crcCalculate]
  rw [h16] at h1 h2 ⊢
  exact Nat.xor_lt_two_pow h1 h2

/-- Splitting a 16-bit value into its big-endian bytes and recombining
them with shift-or is the identity. -/
theorem hi_lo_recompose (c : Nat) (hc : c < 65536) :
    ((c >>> 8) &&& 0xff) <<< 8 ||| (c &&& 0xff) = c := by
  apply Nat.eq_of_testBit_eq
  intro i
  have h255 : (0xff : Nat) = 2 ^ 8 - 1 := by norm_num
  simp only [Nat.testBit_lor, Nat.testBit_shiftLeft, Nat.testBit_land, Nat.testBit_shiftRight,
    h255, Nat.testBit_two_pow_sub_one]
  rcases Nat.lt_or_ge i 8 with h8 | h8
  · simp [h8, Nat.not_le.mpr h8]
  · rcases Nat.lt_or_ge i 16 with h16 | h16
    · have hlt : i - 8 < 8 := by omega
      have h8' : 8 ≤ i := h8
      simp [h8', hlt, Nat.add_sub_cancel' h8', Nat.not_lt.mpr h8]
    · have hc' : c.testBit i = false := Nat.testBit_lt_two_pow (by
        calc c < 65536 := hc
          _ ≤ 2 ^ i := by
            have h65536 : (65536 : Nat) = 2 ^ 16 := by norm_num
            rw [h65536]
            exact Nat.pow_le_pow_right (by norm_num) h16)
      have hi8 : ¬ i - 8 < 8 := by omega
      simp [h8, hi8, hc', Nat.not_lt.mpr h8]

/-- Full description of `extractAndValidate` applied to `addCrc`. -/
theorem extractAndValidate_addCrc (x : List Nat) :
    extractAndValidate (addCrc x) =
      { valid := true, data := x, crc := crcCalculate x, calculatedCrc := crcCalculate x } := by
  have hlt := crcCalculate_lt x
  have hform : addCrc x = x ++ [(crcCalculate x >>> 8) &&& 0xff, crcCalculate x &&& 0xff] := rfl
  have hlen : (addCrc x).length = x.length + 2 := by rw [hform]; simp
  have hnot : ¬ x.length + 2 < 2 := by omega
  have hdl : x.length + 2 - 2 = x.length := by omega
  have hone : x.length + 1 - x.length = 1 := by omega
  have htake : (addCrc x).take x.length = x := by rw [hform]; exact List.take_left x _
  have hhi : (addCrc x).getD x.length 0 = (crcCalculate x >>> 8) &&& 0xff := by
    rw [hform, List.getD_eq_getElem?_getD, List.getElem?_append_right (Nat.le_refl _)]
    simp
  have hlo : (addCrc x).getD (x.length + 1) 0 = crcCalculate x &&& 0xff := by
    rw [hform, List.getD_eq_getElem?_getD, List.getElem?_append_right (Nat.le_succ _)]
    simp [hone]
  simp only [extractAndValidate, hlen, hdl, if_neg hnot, htake, hhi, hlo]
  rw [hi_lo_recompose (crcCalculate x) hlt]
  simp

end DLL

/-- C6: for every byte sequence `x`, `bitUnstuff (bitStuff x)` succeeds
and returns `x`, and `bitStuff x` contains no occurrence of the FLAG
byte `0x7e`. -/
theorem c6_bit_stuffing_roundtrip (x : List Nat) (hx : ∀ b ∈ x, b < 256) :
    DLL.bitUnstuff (DLL.bitStuff x) = some x ∧ DLL.FLAG ∉ DLL.bitStuff x :=
  ⟨DLL.bitUnstuff_bitStuff x, DLL.bitStuff_no_flag x⟩

/-- Witness for C6 at the concrete byte sequence `[0x7e, 0x7d, 0x41]`. -/
theorem c6_bit_stuffing_roundtrip_witness :
    DLL.bitUnstuff (DLL.bitStuff [0x7e, 0x7d, 0x41]) = some [0x7e, 0x7d, 0x41] ∧
      DLL.FLAG ∉ DLL.bitStuff [0x7e, 0x7d, 0x41] :=
  c6_bit_stuffing_roundtrip [0x7e, 0x7d, 0x41] (by decide)

/-- C7: for every byte sequence `x`, `extractAndValidate (addCrc x)`
returns `valid = true` and `data = x`, where `addCrc` appends the CRC
big-endian (high byte first) and `extractAndValidate` recombines the
last two bytes as `(buf[-2] <<< 8) ||| buf[-1]` and verifies them
against the CRC of the prefix. -/
theorem c7_crc_roundtrip (x : List Nat) (hx : ∀ b ∈ x, b < 256) :
    (DLL.extractAndValidate (DLL.addCrc x)).valid = true ∧
      (DLL.extractAndValidate (DLL.addCrc x)).data = x := by
  rw [DLL.extractAndValidate_addCrc x]
  exact ⟨rfl, rfl⟩

/-- Witness for C7 at the concrete byte sequence `[0x01, 0x00, 0x41]`. -/
theorem c7_crc_roundtrip_witness :
    (DLL.extractAndValidate (DLL.addCrc [0x01, 0x00, 0x41])).valid = true ∧
      (DLL.extractAndValidate (DLL.addCrc [0x01, 0x00, 0x41])).data = [0x01, 0x00, 0x41] :=
  c7_crc_roundtrip [0x01, 0x00, 0x41] (by decide)

namespace DLL

/-! ### Frame round-trip -/

/-- Stuffing never shortens the buffer. -/
theorem bitStuff_length_ge : ∀ x : List Nat, x.length ≤ (bitStuff x).length := by
  intro x
  induction x with
  | nil => simp [bitStuff]
  | cons b rest ih =>
    by_cases hf : b = FLAG
    · subst hf
      rw [bitStuff_cons_flag]
      simp only [List.length_cons]
      omega
    · by_cases he : b = ESC
      · subst he
        rw [bitStuff_cons_esc]
        simp only [List.length_cons]
        omega
      · rw [bitStuff_cons_other rest hf he]
        simp only [List.length_cons]
        omega

/-- Masking a 4-bit value with `0x0f` is the identity. -/
theorem and_fifteen_eq_self {s : Nat} (hs : s ≤ 15) : s &&& 0x0f = s := by
  have h := Nat.and_pow_two_sub_one_eq_mod s 4
  norm_num at h
  rw [h]
  exact Nat.mod_eq_of_lt (by omega)

/-- `parseFrame` recovers the triple from a frame just built by
`buildFrame`. -/
theorem parseFrame_buildFrame (type seqNum : Nat) (data : List Nat)
    (htype : frameTypeValues.contains type = true)
    (hseq : seqNum ≤ 15) (hdata : data.length ≤ MAX_DATA) :
    buildFrame type seqNum data =
        some (FLAG :: bitStuff (addCrc (type :: (seqNum &&& 0x0f) :: data)) ++ [FLAG]) ∧
      parseFrame (FLAG :: bitStuff (addCrc (type :: (seqNum &&& 0x0f) :: data)) ++ [FLAG]) =
        .ok { type := type, seqNum := seqNum, data := data } := by
  set inner : List Nat := type :: (seqNum &&& 0x0f) :: data with hinner
  set st : List Nat := bitStuff (addCrc inner) with hst
  constructor
  · rw [buildFrame, if_neg (not_not_intro htype), if_neg (Nat.not_lt.mpr hseq),
      if_neg (Nat.not_lt.mpr hdata)]
  · have hpwclen : (addCrc inner).length = data.length + 4 := by
      simp [addCrc, hinner]
    have hstlen : 4 ≤ st.length := by
      rw [hst]
      have := bitStuff_length_ge (addCrc inner)
      omega
    have hflen : (FLAG :: st ++ [FLAG]).length = st.length + 2 := by simp
    have h1 : ¬ ((FLAG :: st ++ [FLAG]).length < 4) := by
      rw [hflen]; omega
    have hfl0 : (FLAG :: st ++ [FLAG]).getD 0 0 = FLAG := by simp
    have hfllast : (FLAG :: st ++ [FLAG]).getD ((FLAG :: st ++ [FLAG]).length - 1) 0 = FLAG := by
      rw [hflen]
      have h21 : st.length + 2 - 1 = (FLAG :: st).length := by simp
      rw [h21, List.getD_eq_getElem?_getD, List.getElem?_append_right (Nat.le_refl _)]
      simp
    have hdrop : ((FLAG :: st ++ [FLAG]).drop 1).dropLast = st := by
      simp
    have hunstuff : bitUnstuff st = some (addCrc inner) := by
      rw [hst]; exact bitUnstuff_bitStuff (addCrc inner)
    have hs : (seqNum &&& 0x0f) &&& 0x0f = seqNum := by
      rw [and_fifteen_eq_self (by
        rw [and_fifteen_eq_self hseq]; exact hseq)]
      exact and_fifteen_eq_self hseq
    rw [parseFrame, if_neg h1, if_neg (not_not_intro ⟨hfl0, hfllast⟩)]
    simp only [hdrop, hunstuff, Option.isNone_some, Bool.false_eq_true, if_false,
      Option.getD_some, if_neg (by rw [hpwclen]; omega : ¬ (addCrc inner).length < 4),
      extractAndValidate_addCrc inner]
    have hinlen : ¬ inner.length < 2 := by
      rw [hinner]
      simp only [List.length_cons]
      omega
    have hmem : type ∈ frameTypeValues := by simpa using htype
    rw [if_neg (by decide : ¬ (true = false)), if_neg hinlen, hinner]
    simp [htype, hs, hmem]

end DLL

/-- C5: for every valid triple (`type` in the 8-member frame-type enum,
`seqNum` in `0..15`, payload of at most 1024 bytes), `parseFrame` applied
to `buildFrame` of that triple succeeds and yields the same type, the
same sequence number, and a byte-for-byte equal payload. -/
theorem c5_frame_roundtrip (type seqNum : Nat) (data : List Nat)
    (htype : DLL.frameTypeValues.contains type = true)
    (hseq : seqNum ≤ 15) (hdata : data.length ≤ DLL.MAX_DATA) :
    ∃ f, DLL.buildFrame type seqNum data = some f ∧
      DLL.parseFrame f = .ok { type := type, seqNum := seqNum, data := data } := by
  obtain ⟨hb, hp⟩ := DLL.parseFrame_buildFrame type seqNum data htype hseq hdata
  exact ⟨_, hb, hp⟩

/-- Witness for C5 with a DATA frame, `seqNum = 5` and a payload that
needs stuffing. -/
theorem c5_frame_roundtrip_witness :
    ∃ f, DLL.buildFrame 0x01 5 [0x7e, 0x7d, 0x41] = some f ∧
      DLL.parseFrame f = .ok { type := 0x01, seqNum := 5, data := [0x7e, 0x7d, 0x41] } :=
  c5_frame_roundtrip 0x01 5 [0x7e, 0x7d, 0x41] (by decide) (by decide) (by decide)

/-- C10: every input buffer shorter than 6 bytes fails to parse: the
explicit guard rejects lengths below 4, and for lengths 4 and 5 either
the FLAG check, the unstuffing, or the post-unstuffing minimum-payload
check (at least 4 inner bytes, while unstuffing at most 3 remain) fails. -/
theorem c10_short_frames_rejected (raw : List Nat) (h : raw.length < 6) :
    DLL.parseSuccess raw = false := by
  have herr : ∃ e, DLL.parseFrame raw = .error e := by
    by_cases h4 : raw.length < 4
    · exact ⟨DLL.ParseError.tooSmall, by rw [DLL.parseFrame, if_pos h4]⟩
    · by_cases hfl : raw.getD 0 0 = DLL.FLAG ∧ raw.getD (raw.length - 1) 0 = DLL.FLAG
      · have hslen : (raw.tail.dropLast).length ≤ 3 := by
          simp only [List.length_dropLast, List.length_tail]
          omega
        rcases hbu : DLL.bitUnstuff (raw.tail.dropLast) with _ | payload
        · refine ⟨DLL.ParseError.stuffingError, ?_⟩
          rw [DLL.parseFrame, if_neg h4, if_neg (not_not_intro hfl)]
          simp [hbu]
        · have hplen : payload.length < 4 := by
            have := DLL.bitUnstuff_length_le _ _ hbu
            omega
          refine ⟨DLL.ParseError.payloadTooSmall, ?_⟩
          rw [DLL.parseFrame, if_neg h4, if_neg (not_not_intro hfl)]
          simp [hbu, hplen]
      · exact ⟨DLL.ParseError.badFlags, by rw [DLL.parseFrame, if_neg h4, if_pos hfl]⟩
  obtain ⟨e, he⟩ := herr
  simp [DLL.parseSuccess, he]

/-- Witness for C10 at a 4-byte buffer with correct flags. -/
theorem c10_short_frames_rejected_witness :
    DLL.parseSuccess [0x7e, 0x01, 0x00, 0x7e] = false :=
  c10_short_frames_rejected [0x7e, 0x01, 0x00, 0x7e] (by decide)

namespace DLL

/-! ### Window manager (src/flowControl/windowManager.js) -/

structure WindowState where
  sendBase : Nat
  nextSeqNum : Nat
  windowSize : Nat
  expectedSeqNum : Nat
  receiveBuffer : List (Option (List Nat))
  receivedMask : Nat
deriving DecidableEq

/-- `WindowManager`'s constructor state. -/
def initialWindowState : WindowState :=
  { sendBase := 0, nextSeqNum := 0, windowSize := WINDOW_SIZE,
    expectedSeqNum := 0, receiveBuffer := List.replicate 16 none, receivedMask := 0 }

inductive AckAction where
  | duplicate
  | outOfWindow
  | accepted
deriving DecidableEq

structure AckProcessResult where
  action : AckAction
  seqNum : Nat
  oldBase : Nat
  newBase : Nat
  slidDistance : Int
  windowSlid : Bool
deriving DecidableEq

/-- `WindowManager.processAck`: the duplicate and out-of-window results
leave the state untouched (`oldBase = newBase = sendBase`, distance 0). -/
def processAck (s : WindowState) (ackSeqNum : Nat) : WindowState × AckProcessResult :=
  let diff := seqNumDiff ackSeqNum s.sendBase
  if diff < 0 then
    (s, ⟨.duplicate, ackSeqNum, s.sendBase, s.sendBase, 0, false⟩)
  else if (s.windowSize : Int) ≤ diff then
    (s, ⟨.outOfWindow, ackSeqNum, s.sendBase, s.sendBase, 0, false⟩)
  else
    let oldBase := s.sendBase
    let newBase := nextSeqNum ackSeqNum
    let s2 := { s with sendBase := newBase }
    (s2, ⟨.accepted, ackSeqNum, oldBase, newBase, seqNumDiff newBase oldBase, true⟩)

inductive RcvAction where
  | duplicate
  | outOfWindow
  | delivered
  | buffered
deriving DecidableEq

structure DeliveredFrame where
  seqNum : Nat
  data : List Nat
deriving DecidableEq

structure ReceiveResult where
  action : RcvAction
  frames : List DeliveredFrame
  expectedSeqNum : Nat
  shouldAck : Bool
deriving DecidableEq

/-- The while loop of `WindowManager.deliverFramesInOrder`, with fuel.
The receive buffer has 16 slots and each iteration clears the slot it
reads before advancing `expectedSeqNum` modulo 16, so after 16
iterations the slot at the current `expectedSeqNum` has already been
cleared and the source's loop guard fails; fuel 16 therefore reproduces
the source loop exactly. -/
def deliverLoop : Nat → WindowState → WindowState × List DeliveredFrame
  | 0, s => (s, [])
  | fuel + 1, s =>
    match s.receiveBuffer.getD s.expectedSeqNum none with
    | none => (s, [])
    | some d =>
      let s2 : WindowState :=
        { s with receiveBuffer := s.receiveBuffer.set s.expectedSeqNum none,
                 expectedSeqNum := nextSeqNum s.expectedSeqNum,
                 receivedMask := s.receivedMask >>> 1 }
      let r := deliverLoop fuel s2
      (r.1, ⟨s.expectedSeqNum, d⟩ :: r.2)

/-- `WindowManager.deliverFramesInOrder`. -/
def deliverFramesInOrder (s : WindowState) : WindowState × ReceiveResult :=
  let r := deliverLoop 16 s
  (r.1, ⟨.delivered, r.2, r.1.expectedSeqNum, true⟩)

/-- `WindowManager.receiveFrame`. -/
def receiveFrame (s : WindowState) (seqNum : Nat) (data : List Nat) :
    WindowState × ReceiveResult :=
  let diff := seqNumDiff seqNum s.expectedSeqNum
  if diff < 0 then
    (s, ⟨.duplicate, [], s.expectedSeqNum, true⟩)
  else if (s.windowSize : Int) ≤ diff then
    (s, ⟨.outOfWindow, [], s.expectedSeqNum, false⟩)
  else
    let s1 := { s with receiveBuffer := s.receiveBuffer.set seqNum (some data),
                       receivedMask := s.receivedMask ||| (1 <<< diff.toNat) }
    if seqNum = s.expectedSeqNum then deliverFramesInOrder s1
    else (s1, ⟨.buffered, [], s1.expectedSeqNum, false⟩)

/-- A receiver run: apply `receiveFrame` to each `(seq, data)` event and
concatenate the delivered frames. -/
def runReceiver : WindowState → List (Nat × List Nat) → WindowState × List DeliveredFrame
  | s, [] => (s, [])
  | s, ev :: rest =>
    let r1 := receiveFrame s ev.1 ev.2
    let r2 := runReceiver r1.1 rest
    (r2.1, r1.2.frames ++ r2.2)

/-- Consecutive sequence numbers modulo 16 starting at `e`. -/
def consecFrom (e k : Nat) : List Nat := (List.range k).map (fun i => (e + i) % 16)

end DLL

namespace DLL

/-! ### Receiver delivery lemmas -/

/-- Setting a slot to `none` preserves every already-empty slot. -/
theorem getD_set_none (l : List (Option (List Nat))) (e j : Nat)
    (hj : l.getD j none = none) : (l.set e none).getD j none = none := by
  by_cases hej : e = j
  · subst hej
    rcases Nat.lt_or_ge e l.length with hlt | hge
    · rw [List.getD_eq_getElem?_getD, List.getElem?_set_self hlt]
      rfl
    · rw [List.set_eq_of_length_le hge]
      exact hj
  · rw [List.getD_eq_getElem?_getD, List.getElem?_set_ne hej,
      ← List.getD_eq_getElem?_getD]
    exact hj

/-- The delivery loop never refills a slot: empty slots stay empty. -/
theorem deliverLoop_preserves_none : ∀ (fuel : Nat) (s : WindowState) (j : Nat),
    s.receiveBuffer.getD j none = none →
    (deliverLoop fuel s).1.receiveBuffer.getD j none = none := by
  intro fuel
  induction fuel with
  | zero => intro s j h; exact h
  | succ n ih =>
    intro s j h
    rcases hslot : s.receiveBuffer.getD s.expectedSeqNum none with _ | d
    · simp only [deliverLoop, hslot]
      exact h
    · simp only [deliverLoop, hslot]
      exact ih _ j (getD_set_none _ _ _ h)

/-- Unfolding `consecFrom` at a successor length. -/
theorem consecFrom_succ (e k : Nat) :
    consecFrom e (k + 1) = e % 16 :: consecFrom ((e + 1) % 16) k := by
  rw [consecFrom, List.range_succ_eq_map, List.map_cons, List.map_map]
  refine congrArg₂ _ (by simp) ?_
  rw [consecFrom]
  apply List.map_congr_left
  intro i _
  simp only [Function.comp_apply, Nat.mod_add_mod, Nat.succ_eq_add_one]
  congr 1
  omega

/-- Full description of the delivery loop: delivered sequence numbers
are consecutive modulo 16 from the entry `expectedSeqNum`, which
advances once per delivered frame; sender fields are untouched; every
delivered slot ends up cleared. -/
theorem deliverLoop_spec : ∀ (fuel : Nat) (s : WindowState),
    s.expectedSeqNum < 16 →
    (deliverLoop fuel s).2.map (fun f => f.seqNum) =
        consecFrom s.expectedSeqNum (deliverLoop fuel s).2.length ∧
      (deliverLoop fuel s).1.expectedSeqNum =
        (s.expectedSeqNum + (deliverLoop fuel s).2.length) % 16 ∧
      (deliverLoop fuel s).1.sendBase = s.sendBase ∧
      (deliverLoop fuel s).1.nextSeqNum = s.nextSeqNum ∧
      (deliverLoop fuel s).1.windowSize = s.windowSize ∧
      (deliverLoop fuel s).1.receiveBuffer.length = s.receiveBuffer.length ∧
      (∀ i < (deliverLoop fuel s).2.length,
        (deliverLoop fuel s).1.receiveBuffer.getD ((s.expectedSeqNum + i) % 16) none = none) := by
  intro fuel
  induction fuel with
  | zero =>
    intro s he
    simp only [deliverLoop]
    refine ⟨by simp [consecFrom], ?_, trivial, trivial, trivial, trivial, ?_⟩
    · simp [Nat.mod_eq_of_lt he]
    · intro i hi
      simp at hi
  | succ n ih =>
    intro s he
    rcases hslot : s.receiveBuffer.getD s.expectedSeqNum none with _ | d
    · simp only [deliverLoop, hslot]
      refine ⟨by simp [consecFrom], ?_, trivial, trivial, trivial, trivial, ?_⟩
      · simp [Nat.mod_eq_of_lt he]
      · intro i hi
        simp at hi
    · have hl : s.expectedSeqNum < s.receiveBuffer.length := by
        by_contra hg
        rw [List.getD_eq_getElem?_getD, List.getElem?_eq_none (Nat.le_of_not_lt hg)] at hslot
        simp at hslot
      have he2 : nextSeqNum s.expectedSeqNum < 16 := Nat.mod_lt _ (by norm_num)
      obtain ⟨ih1, ih2, ih3, ih4, ih5, ih6, ih7⟩ :=
        ih { s with receiveBuffer := s.receiveBuffer.set s.expectedSeqNum none,
                    expectedSeqNum := nextSeqNum s.expectedSeqNum,
                    receivedMask := s.receivedMask >>> 1 } he2
      simp only [deliverLoop, hslot]
      refine ⟨?_, ?_, ih3, ih4, ih5, ?_, ?_⟩
      · rw [List.map_cons, List.length_cons, ih1, consecFrom_succ, Nat.mod_eq_of_lt he]
        rfl
      · rw [List.length_cons, ih2]
        show (nextSeqNum s.expectedSeqNum + _) % 16 = _
        have hnext : nextSeqNum s.expectedSeqNum = (s.expectedSeqNum + 1) % 16 := rfl
        rw [hnext, Nat.mod_add_mod]
        congr 1
        omega
      · rw [ih6]
        show (s.receiveBuffer.set s.expectedSeqNum none).length = s.receiveBuffer.length
        simp
      · intro i hi
        rcases i with _ | i
        · have h0 : (s.expectedSeqNum + 0) % 16 = s.expectedSeqNum := by
            rw [Nat.add_zero]
            exact Nat.mod_eq_of_lt he
          rw [h0]
          apply deliverLoop_preserves_none
          show (s.receiveBuffer.set s.expectedSeqNum none).getD s.expectedSeqNum none = none
          rw [List.getD_eq_getElem?_getD, List.getElem?_set_self hl]
          rfl
        · have harith : (s.expectedSeqNum + (i + 1)) % 16 =
              (nextSeqNum s.expectedSeqNum + i) % 16 := by
            have hnext : nextSeqNum s.expectedSeqNum = (s.expectedSeqNum + 1) % 16 := rfl
            rw [hnext, Nat.mod_add_mod]
            congr 1
            omega
          rw [harith]
          apply ih7
          simp only [List.length_cons] at hi
          omega

/-- Concatenating two consecutive runs modulo 16 gives one consecutive
run. -/
theorem consecFrom_append : ∀ (k1 : Nat) (e k2 : Nat), e < 16 →
    consecFrom e k1 ++ consecFrom ((e + k1) % 16) k2 = consecFrom e (k1 + k2) := by
  intro k1
  induction k1 with
  | zero =>
    intro e k2 he
    simp [consecFrom, Nat.mod_eq_of_lt he]
  | succ n ih =>
    intro e k2 he
    have he' : (e + 1) % 16 < 16 := Nat.mod_lt _ (by norm_num)
    have harith : (e + (n + 1)) % 16 = ((e + 1) % 16 + n) % 16 := by
      rw [Nat.mod_add_mod]
      congr 1
      omega
    have hsh : n + 1 + k2 = (n + k2) + 1 := by omega
    rw [consecFrom_succ e n, Nat.mod_eq_of_lt he, List.cons_append, harith,
      ih ((e + 1) % 16) k2 he', hsh, consecFrom_succ e (n + k2), Nat.mod_eq_of_lt he]

/-- One `receiveFrame` call, any branch: the delivered batch is
consecutive modulo 16 from the current `expectedSeqNum`, which advances
once per delivered frame and stays below 16. -/
theorem receiveFrame_step (s : WindowState) (q : Nat) (d : List Nat)
    (he : s.expectedSeqNum < 16) :
    (receiveFrame s q d).2.frames.map (fun f => f.seqNum) =
        consecFrom s.expectedSeqNum (receiveFrame s q d).2.frames.length ∧
      (receiveFrame s q d).1.expectedSeqNum =
        (s.expectedSeqNum + (receiveFrame s q d).2.frames.length) % 16 ∧
      (receiveFrame s q d).1.expectedSeqNum < 16 := by
  rw [receiveFrame]
  by_cases h1 : seqNumDiff q s.expectedSeqNum < 0
  · rw [if_pos h1]
    exact ⟨by simp [consecFrom], by simp [Nat.mod_eq_of_lt he], he⟩
  · rw [if_neg h1]
    by_cases h2 : (s.windowSize : Int) ≤ seqNumDiff q s.expectedSeqNum
    · rw [if_pos h2]
      exact ⟨by simp [consecFrom], by simp [Nat.mod_eq_of_lt he], he⟩
    · rw [if_neg h2]
      by_cases h3 : q = s.expectedSeqNum
      · rw [if_pos h3]
        simp only [deliverFramesInOrder]
        obtain ⟨hd1, hd2, _, _, _, _, _⟩ := deliverLoop_spec 16
          { s with receiveBuffer := s.receiveBuffer.set q (some d),
                   receivedMask := s.receivedMask ||| (1 <<< (seqNumDiff q s.expectedSeqNum).toNat) }
          he
        exact ⟨hd1, hd2, by rw [hd2]; exact Nat.mod_lt _ (by norm_num)⟩
      · rw [if_neg h3]
        exact ⟨by simp [consecFrom], by simp [Nat.mod_eq_of_lt he], he⟩

/-- Over any run of `receiveFrame` events, the concatenated delivered
sequence numbers are consecutive modulo 16 from the starting
`expectedSeqNum`: strictly increasing, no gaps, no repeats within an
epoch of 16. -/
theorem runReceiver_consec : ∀ (events : List (Nat × List Nat)) (s : WindowState),
    s.expectedSeqNum < 16 →
    (runReceiver s events).2.map (fun f => f.seqNum) =
      consecFrom s.expectedSeqNum (runReceiver s events).2.length := by
  intro events
  induction events with
  | nil =>
    intro s he
    simp [runReceiver, consecFrom]
  | cons ev rest ih =>
    intro s he
    obtain ⟨h1, h2, h3⟩ := receiveFrame_step s ev.1 ev.2 he
    simp only [runReceiver]
    rw [List.map_append, List.length_append, h1, ih _ h3, h2,
      consecFrom_append _ _ _ he]

/-- A non-empty slot at `expectedSeqNum` guarantees at least one
delivery. -/
theorem deliverLoop_pos (fuel : Nat) (s : WindowState) (d : List Nat)
    (hslot : s.receiveBuffer.getD s.expectedSeqNum none = some d) :
    1 ≤ (deliverLoop (fuel + 1) s).2.length := by
  simp only [deliverLoop, hslot]
  simp

end DLL

/-- C2: for every receiver state and in-window DATA frame,
`receiveFrame` returns `delivered` exactly when the sequence number
equals `expectedSeqNum`; the delivered list is then non-empty and
consists of consecutive sequence numbers modulo 16 starting at the old
`expectedSeqNum`, each delivered slot is cleared, `expectedSeqNum`
advances once per delivered frame, and an ACK is requested; an
in-window frame that is not the expected one is stored in its slot and
`buffered` is returned with no ACK; over any run the delivered sequence
numbers are consecutive modulo 16 with no gaps and no repeats within an
epoch. -/
theorem c2_receiver_in_order_delivery (s : DLL.WindowState) (seqNum : Nat) (data : List Nat)
    (hbuf : s.receiveBuffer.length = 16) (he : s.expectedSeqNum < 16) (hseq : seqNum < 16)
    (hin : 0 ≤ DLL.seqNumDiff seqNum s.expectedSeqNum ∧
      DLL.seqNumDiff seqNum s.expectedSeqNum < (s.windowSize : Int)) :
    (((DLL.receiveFrame s seqNum data).2.action = DLL.RcvAction.delivered) ↔
        seqNum = s.expectedSeqNum) ∧
      (seqNum = s.expectedSeqNum →
        1 ≤ (DLL.receiveFrame s seqNum data).2.frames.length ∧
        (DLL.receiveFrame s seqNum data).2.frames.map (fun f => f.seqNum) =
          DLL.consecFrom s.expectedSeqNum (DLL.receiveFrame s seqNum data).2.frames.length ∧
        (DLL.receiveFrame s seqNum data).1.expectedSeqNum =
          (s.expectedSeqNum + (DLL.receiveFrame s seqNum data).2.frames.length) % 16 ∧
        (DLL.receiveFrame s seqNum data).2.shouldAck = true ∧
        (∀ i < (DLL.receiveFrame s seqNum data).2.frames.length,
          (DLL.receiveFrame s seqNum data).1.receiveBuffer.getD
            ((s.expectedSeqNum + i) % 16) none = none)) ∧
      (seqNum ≠ s.expectedSeqNum →
        (DLL.receiveFrame s seqNum data).2.action = DLL.RcvAction.buffered ∧
        (DLL.receiveFrame s seqNum data).2.shouldAck = false ∧
        (DLL.receiveFrame s seqNum data).1.receiveBuffer =
          s.receiveBuffer.set seqNum (some data) ∧
        (DLL.receiveFrame s seqNum data).1.expectedSeqNum = s.expectedSeqNum) ∧
      (∀ events : List (Nat × List Nat),
        (DLL.runReceiver s events).2.map (fun f => f.seqNum) =
          DLL.consecFrom s.expectedSeqNum (DLL.runReceiver s events).2.length) := by
  have h1 : ¬ DLL.seqNumDiff seqNum s.expectedSeqNum < 0 := not_lt.mpr hin.1
  have h2 : ¬ ((s.windowSize : Int) ≤ DLL.seqNumDiff seqNum s.expectedSeqNum) :=
    not_le.mpr hin.2
  refine ⟨?_, ?_, ?_, ?_⟩
  · by_cases h3 : seqNum = s.expectedSeqNum
    · constructor
      · intro _
        exact h3
      · intro _
        rw [DLL.receiveFrame, if_neg h1, if_neg h2, if_pos h3]
        rfl
    · constructor
      · intro hdel
        rw [DLL.receiveFrame, if_neg h1, if_neg h2, if_neg h3] at hdel
        simp at hdel
      · intro h3'
        exact absurd h3' h3
  · intro h3
    rw [DLL.receiveFrame, if_neg h1, if_neg h2, if_pos h3]
    simp only [DLL.deliverFramesInOrder]
    have hslot : (s.receiveBuffer.set seqNum (some data)).getD s.expectedSeqNum none =
        some data := by
      rw [← h3, List.getD_eq_getElem?_getD,
        List.getElem?_set_self (by rw [hbuf]; exact hseq)]
      rfl
    obtain ⟨hd1, hd2, _, _, _, _, hd7⟩ := DLL.deliverLoop_spec 16
      { s with receiveBuffer := s.receiveBuffer.set seqNum (some data),
               receivedMask := s.receivedMask ||| (1 <<< (DLL.seqNumDiff seqNum s.expectedSeqNum).toNat) }
      he
    refine ⟨?_, hd1, hd2, trivial, hd7⟩
    exact DLL.deliverLoop_pos 15
      { s with receiveBuffer := s.receiveBuffer.set seqNum (some data),
               receivedMask := s.receivedMask ||| (1 <<< (DLL.seqNumDiff seqNum s.expectedSeqNum).toNat) }
      data hslot
  · intro h3
    rw [DLL.receiveFrame, if_neg h1, if_neg h2, if_neg h3]
    exact ⟨rfl, rfl, rfl, rfl⟩
  · intro events
    exact DLL.runReceiver_consec events s he

/-- Witness for C2 from the initial receiver state with the expected
frame `seq = 0`. -/
theorem c2_receiver_in_order_delivery_witness :
    (((DLL.receiveFrame DLL.initialWindowState 0 [0x41]).2.action = DLL.RcvAction.delivered) ↔
        (0 : Nat) = DLL.initialWindowState.expectedSeqNum) ∧
      ((0 : Nat) = DLL.initialWindowState.expectedSeqNum →
        1 ≤ (DLL.receiveFrame DLL.initialWindowState 0 [0x41]).2.frames.length ∧
        (DLL.receiveFrame DLL.initialWindowState 0 [0x41]).2.frames.map (fun f => f.seqNum) =
          DLL.consecFrom DLL.initialWindowState.expectedSeqNum
            (DLL.receiveFrame DLL.initialWindowState 0 [0x41]).2.frames.length ∧
        (DLL.receiveFrame DLL.initialWindowState 0 [0x41]).1.expectedSeqNum =
          (DLL.initialWindowState.expectedSeqNum +
            (DLL.receiveFrame DLL.initialWindowState 0 [0x41]).2.frames.length) % 16 ∧
        (DLL.receiveFrame DLL.initialWindowState 0 [0x41]).2.shouldAck = true ∧
        (∀ i < (DLL.receiveFrame DLL.initialWindowState 0 [0x41]).2.frames.length,
          (DLL.receiveFrame DLL.initialWindowState 0 [0x41]).1.receiveBuffer.getD
            ((DLL.initialWindowState.expectedSeqNum + i) % 16) none = none)) ∧
      ((0 : Nat) ≠ DLL.initialWindowState.expectedSeqNum →
        (DLL.receiveFrame DLL.initialWindowState 0 [0x41]).2.action = DLL.RcvAction.buffered ∧
        (DLL.receiveFrame DLL.initialWindowState 0 [0x41]).2.shouldAck = false ∧
        (DLL.receiveFrame DLL.initialWindowState 0 [0x41]).1.receiveBuffer =
          DLL.initialWindowState.receiveBuffer.set 0 (some [0x41]) ∧
        (DLL.receiveFrame DLL.initialWindowState 0 [0x41]).1.expectedSeqNum =
          DLL.initialWindowState.expectedSeqNum) ∧
      (∀ events : List (Nat × List Nat),
        (DLL.runReceiver DLL.initialWindowState events).2.map (fun f => f.seqNum) =
          DLL.consecFrom DLL.initialWindowState.expectedSeqNum
            (DLL.runReceiver DLL.initialWindowState events).2.length) :=
  c2_receiver_in_order_delivery DLL.initialWindowState 0 [0x41]
    (by decide) (by decide) (by decide) (by decide)

namespace DLL

/-! ### Window-slide arithmetic -/

/-- `seqNumDiff` of a value with itself is zero. -/
theorem seqNumDiff_self (b : Nat) : seqNumDiff b b = 0 := by
  have h : b + (15 + 1) - b = 16 := by omega
  rw [seqNumDiff, MAX_SEQ_NUM, h]
  norm_num

/-- Checked over the whole bounded domain: sliding to `(a + 1) % 16`
moves the signed difference up by exactly one whenever `a` is in the
window of `b`. -/
theorem seqNumDiff_slide_core : ∀ b : Fin 16, ∀ a : Fin 16, ∀ w : Fin 9,
    (0 ≤ seqNumDiff a.val b.val ∧ seqNumDiff a.val b.val < (w.val : Int)) →
    seqNumDiff ((a.val + 1) % 16) b.val = seqNumDiff a.val b.val + 1 := by decide

end DLL

/-- C4: `processAck` leaves `sendBase` unchanged when the signed
difference is negative (duplicate) or at least `windowSize`
(out-of-window), and otherwise sets `sendBase := (ackSeqNum + 1) % 16`
with slide distance `d + 1` in `1..windowSize`; consequently `sendBase`
never regresses in the signed-mod-16 sense. -/
theorem c4_processAck_never_regresses (s : DLL.WindowState) (ackSeqNum : Nat)
    (hbase : s.sendBase < 16) (hack : ackSeqNum < 16) (hws : s.windowSize ≤ 8) :
    ((DLL.seqNumDiff ackSeqNum s.sendBase < 0 ∨
        (s.windowSize : Int) ≤ DLL.seqNumDiff ackSeqNum s.sendBase) →
      (DLL.processAck s ackSeqNum).1.sendBase = s.sendBase ∧
      (DLL.processAck s ackSeqNum).2.windowSlid = false) ∧
    ((0 ≤ DLL.seqNumDiff ackSeqNum s.sendBase ∧
        DLL.seqNumDiff ackSeqNum s.sendBase < (s.windowSize : Int)) →
      (DLL.processAck s ackSeqNum).1.sendBase = (ackSeqNum + 1) % 16 ∧
      (DLL.processAck s ackSeqNum).2.windowSlid = true ∧
      (DLL.processAck s ackSeqNum).2.slidDistance =
        DLL.seqNumDiff ackSeqNum s.sendBase + 1 ∧
      1 ≤ (DLL.processAck s ackSeqNum).2.slidDistance ∧
      (DLL.processAck s ackSeqNum).2.slidDistance ≤ (s.windowSize : Int)) ∧
    0 ≤ DLL.seqNumDiff (DLL.processAck s ackSeqNum).1.sendBase s.sendBase := by
  have hnext : DLL.nextSeqNum ackSeqNum = (ackSeqNum + 1) % 16 := rfl
  by_cases h1 : DLL.seqNumDiff ackSeqNum s.sendBase < 0
  · refine ⟨fun _ => ?_, fun hcontra => absurd hcontra.1 (not_le.mpr h1), ?_⟩
    · rw [DLL.processAck, if_pos h1]
      exact ⟨rfl, rfl⟩
    · rw [DLL.processAck, if_pos h1]
      show (0 : Int) ≤ DLL.seqNumDiff s.sendBase s.sendBase
      rw [DLL.seqNumDiff_self]
  · by_cases h2 : (s.windowSize : Int) ≤ DLL.seqNumDiff ackSeqNum s.sendBase
    · refine ⟨fun _ => ?_, fun hcontra => absurd hcontra.2 (not_lt.mpr h2), ?_⟩
      · rw [DLL.processAck, if_neg h1, if_pos h2]
        exact ⟨rfl, rfl⟩
      · rw [DLL.processAck, if_neg h1, if_pos h2]
        show (0 : Int) ≤ DLL.seqNumDiff s.sendBase s.sendBase
        rw [DLL.seqNumDiff_self]
    · have hc : DLL.seqNumDiff ((ackSeqNum + 1) % 16) s.sendBase =
          DLL.seqNumDiff ackSeqNum s.sendBase + 1 :=
        DLL.seqNumDiff_slide_core ⟨s.sendBase, hbase⟩ ⟨ackSeqNum, hack⟩
          ⟨s.windowSize, by omega⟩ ⟨not_lt.mp h1, not_le.mp h2⟩
      refine ⟨fun hcontra => ?_, fun _ => ?_, ?_⟩
      · rcases hcontra with hA | hB
        · exact absurd hA h1
        · exact absurd hB h2
      · rw [DLL.processAck, if_neg h1, if_neg h2]
        refine ⟨rfl, rfl, ?_, ?_, ?_⟩
        · show DLL.seqNumDiff (DLL.nextSeqNum ackSeqNum) s.sendBase = _
          rw [hnext, hc]
        · show (1 : Int) ≤ DLL.seqNumDiff (DLL.nextSeqNum ackSeqNum) s.sendBase
          rw [hnext, hc]
          have := not_lt.mp h1
          omega
        · show DLL.seqNumDiff (DLL.nextSeqNum ackSeqNum) s.sendBase ≤ _
          rw [hnext, hc]
          have := not_le.mp h2
          omega
      · rw [DLL.processAck, if_neg h1, if_neg h2]
        show (0 : Int) ≤ DLL.seqNumDiff (DLL.nextSeqNum ackSeqNum) s.sendBase
        rw [hnext, hc]
        have := not_lt.mp h1
        omega

/-- Witness for C4: from the initial window (base 0, size 8), ACK 3
slides the base to 4 with distance 4. -/
theorem c4_processAck_never_regresses_witness :
    ((DLL.seqNumDiff 3 DLL.initialWindowState.sendBase < 0 ∨
        (DLL.initialWindowState.windowSize : Int) ≤
          DLL.seqNumDiff 3 DLL.initialWindowState.sendBase) →
      (DLL.processAck DLL.initialWindowState 3).1.sendBase = DLL.initialWindowState.sendBase ∧
      (DLL.processAck DLL.initialWindowState 3).2.windowSlid = false) ∧
    ((0 ≤ DLL.seqNumDiff 3 DLL.initialWindowState.sendBase ∧
        DLL.seqNumDiff 3 DLL.initialWindowState.sendBase <
          (DLL.initialWindowState.windowSize : Int)) →
      (DLL.processAck DLL.initialWindowState 3).1.sendBase = (3 + 1) % 16 ∧
      (DLL.processAck DLL.initialWindowState 3).2.windowSlid = true ∧
      (DLL.processAck DLL.initialWindowState 3).2.slidDistance =
        DLL.seqNumDiff 3 DLL.initialWindowState.sendBase + 1 ∧
      1 ≤ (DLL.processAck DLL.initialWindowState 3).2.slidDistance ∧
      (DLL.processAck DLL.initialWindowState 3).2.slidDistance ≤
        (DLL.initialWindowState.windowSize : Int)) ∧
    0 ≤ DLL.seqNumDiff (DLL.processAck DLL.initialWindowState 3).1.sendBase
      DLL.initialWindowState.sendBase :=
  c4_processAck_never_regresses DLL.initialWindowState 3 (by decide) (by decide) (by decide)

namespace DLL

/-! ### Acknowledgment engine (src/errorControl/acknowledgments.js,
bundled in src/src/connection/connectionManager.js) -/

structure AckEntry where
  frame : List Nat
  retries : Nat
deriving DecidableEq

inductive AckEvent where
  | ackRegistered (seqNum : Nat)
  | ackReceived (seqNum : Nat) (retries : Nat)
  | ackUnexpected (seqNum : Nat)
  | nakReceived (seqNum : Nat) (retries : Nat)
  | nakUnexpected (seqNum : Nat)
  | ackTimeoutFired (seqNum : Nat) (retries : Nat)
  | frameRetransmitting (seqNum : Nat) (attempt : Nat)
  | frameFailed (seqNum : Nat) (retries : Nat)
deriving DecidableEq

structure AckStats where
  timeouts : Nat
  retransmissions : Nat
deriving DecidableEq

/-- The acknowledgment manager: `pendingAcks` is the `Map` as an
association list (keys unique, JS insertion order); timers are modelled
through the timeout events that fire; `transmissionsLog` records every
invocation of a retransmit callback (each one hands the stored frame
bytes to the physical layer); `events` records the emitted events. -/
structure AckState where
  pendingAcks : List (Nat × AckEntry)
  stats : AckStats
  transmissionsLog : List Nat
  events : List AckEvent
deriving DecidableEq

def initialAckState : AckState := ⟨[], ⟨0, 0⟩, [], []⟩

/-- `Map.set` on an existing key: replace the entry in place. -/
def setEntry (l : List (Nat × AckEntry)) (seqNum : Nat) (e : AckEntry) :
    List (Nat × AckEntry) :=
  l.map (fun p => if p.1 = seqNum then (seqNum, e) else p)

/-- `Map.delete`. -/
def erasePending (l : List (Nat × AckEntry)) (seqNum : Nat) : List (Nat × AckEntry) :=
  l.filter (fun p => p.1 != seqNum)

/-- `AcknowledgmentManager.registerPendingAck`: replaces any existing
entry for `seqNum` (its timer is cancelled and re-armed) and stores the
frame with `retries = 0`. -/
def registerPendingAck (s : AckState) (seqNum : Nat) (frame : List Nat) : AckState :=
  let entry : AckEntry := ⟨frame, 0⟩
  let newPending :=
    if (s.pendingAcks.lookup seqNum).isSome then setEntry s.pendingAcks seqNum entry
    else s.pendingAcks ++ [(seqNum, entry)]
  { s with pendingAcks := newPending,
           events := s.events ++ [.ackRegistered seqNum] }

/-- `AcknowledgmentManager.handleReceivedAck`: removes exactly the ACKed
sequence number (cancelling its timer); unknown sequence numbers emit
`ack_unexpected`. -/
def handleReceivedAck (s : AckState) (seqNum : Nat) : AckState × Bool :=
  match s.pendingAcks.lookup seqNum with
  | none => ({ s with events := s.events ++ [.ackUnexpected seqNum] }, false)
  | some p =>
    ({ s with pendingAcks := erasePending s.pendingAcks seqNum,
              events := s.events ++ [.ackReceived seqNum p.retries] }, true)

/-- `AcknowledgmentManager.retransmitFrame`: counts a retransmission,
re-arms the timer and hands the stored frame bytes to the retransmit
callback; the entry's `retries` counter is not touched here. -/
def retransmitFrame (s : AckState) (seqNum : Nat) : AckState :=
  match s.pendingAcks.lookup seqNum with
  | none => s
  | some p =>
    { s with stats := { s.stats with retransmissions := s.stats.retransmissions + 1 },
             transmissionsLog := s.transmissionsLog ++ [seqNum],
             events := s.events ++ [.frameRetransmitting seqNum (p.retries + 1)] }

/-- `AcknowledgmentManager.handleReceivedNak`: a NAK for a pending
sequence number retransmits immediately. -/
def handleReceivedNak (s : AckState) (seqNum : Nat) : AckState × Bool :=
  match s.pendingAcks.lookup seqNum with
  | none => ({ s with events := s.events ++ [.nakUnexpected seqNum] }, false)
  | some p =>
    let s1 := { s with events := s.events ++ [.nakReceived seqNum p.retries] }
    (retransmitFrame s1 seqNum, true)

/-- `AcknowledgmentManager.handleAckTimeout`: increments `retries`
first; if the incremented value reaches `MAX_RETRIES` the entry is
removed and `frame_failed` emitted, otherwise the frame is
retransmitted. -/
def handleAckTimeout (s : AckState) (seqNum : Nat) : AckState :=
  match s.pendingAcks.lookup seqNum with
  | none => s
  | some p =>
    let r := p.retries + 1
    let s1 := { s with
      pendingAcks := setEntry s.pendingAcks seqNum { p with retries := r },
      stats := { s.stats with timeouts := s.stats.timeouts + 1 },
      events := s.events ++ [.ackTimeoutFired seqNum r] }
    if MAX_RETRIES ≤ r then
      { s1 with pendingAcks := erasePending s1.pendingAcks seqNum,
                events := s1.events ++ [.frameFailed seqNum r] }
    else retransmitFrame s1 seqNum

/-! ### Coordinator ACK path (dataLinkLayer.js, included in src/README.md) -/

structure DllState where
  ackState : AckState
  window : WindowState
deriving DecidableEq

/-- `DataLinkLayer.processAckFrame`: forward the ACK to the
acknowledgment engine (which removes only that exact sequence number
from the pending map), then slide the window cumulatively. -/
def processAckFrame (st : DllState) (seqNum : Nat) : DllState × AckProcessResult :=
  let a := handleReceivedAck st.ackState seqNum
  let w := processAck st.window seqNum
  (⟨a.1, w.1⟩, w.2)

/-! ### Timeout-only lifecycle of a single registered frame -/

/-- The lifecycle of one DATA frame when every copy is lost: the
coordinator builds the frame, transmits it once, and registers it; after
that only the retransmission timer fires.  `n` counts timer firings. -/
def timeoutOnlyRun (seqNum : Nat) (frame : List Nat) : Nat → AckState
  | 0 => registerPendingAck initialAckState seqNum frame
  | n + 1 => handleAckTimeout (timeoutOnlyRun seqNum frame n) seqNum

/-- Times the frame crosses to the physical layer in the timeout-only
run: the coordinator's original transmission plus every
retransmit-callback invocation. -/
def totalTransmissions (s : AckState) : Nat := 1 + s.transmissionsLog.length

end DLL

namespace DLL

/-! ### Closed forms of the timeout-only run -/

theorem lookup_single (q : Nat) (e : AckEntry) :
    ([(q, e)] : List (Nat × AckEntry)).lookup q = some e := by
  simp [List.lookup]

theorem setEntry_single (q : Nat) (e e2 : AckEntry) : setEntry [(q, e)] q e2 = [(q, e2)] := by
  simp [setEntry]

theorem erasePending_single (q : Nat) (e : AckEntry) : erasePending [(q, e)] q = [] := by
  simp [erasePending]

theorem timeoutOnlyRun_zero (q : Nat) (f : List Nat) :
    timeoutOnlyRun q f 0 = ⟨[(q, ⟨f, 0⟩)], ⟨0, 0⟩, [], [.ackRegistered q]⟩ := by
  simp [timeoutOnlyRun, registerPendingAck, initialAckState, List.lookup]

theorem timeoutOnlyRun_one (q : Nat) (f : List Nat) :
    timeoutOnlyRun q f 1 = ⟨[(q, ⟨f, 1⟩)], ⟨1, 1⟩, [q],
      [.ackRegistered q, .ackTimeoutFired q 1, .frameRetransmitting q 2]⟩ := by
  show handleAckTimeout (timeoutOnlyRun q f 0) q = _
  rw [timeoutOnlyRun_zero]
  simp [handleAckTimeout, retransmitFrame, lookup_single, setEntry_single, erasePending_single, MAX_RETRIES]

theorem timeoutOnlyRun_two (q : Nat) (f : List Nat) :
    timeoutOnlyRun q f 2 = ⟨[(q, ⟨f, 2⟩)], ⟨2, 2⟩, [q, q],
      [.ackRegistered q, .ackTimeoutFired q 1, .frameRetransmitting q 2,
        .ackTimeoutFired q 2, .frameRetransmitting q 3]⟩ := by
  show handleAckTimeout (timeoutOnlyRun q f 1) q = _
  rw [timeoutOnlyRun_one]
  simp [handleAckTimeout, retransmitFrame, lookup_single, setEntry_single, erasePending_single, MAX_RETRIES]

theorem timeoutOnlyRun_three (q : Nat) (f : List Nat) :
    timeoutOnlyRun q f 3 = ⟨[], ⟨3, 2⟩, [q, q],
      [.ackRegistered q, .ackTimeoutFired q 1, .frameRetransmitting q 2,
        .ackTimeoutFired q 2, .frameRetransmitting q 3,
        .ackTimeoutFired q 3, .frameFailed q 3]⟩ := by
  show handleAckTimeout (timeoutOnlyRun q f 2) q = _
  rw [timeoutOnlyRun_two]
  simp [handleAckTimeout, retransmitFrame, lookup_single, setEntry_single, erasePending_single, MAX_RETRIES]

/-- After the third timeout the entry is gone and further timeouts are
no-ops. -/
theorem timeoutOnlyRun_stable (q : Nat) (f : List Nat) : ∀ n,
    timeoutOnlyRun q f (n + 3) = timeoutOnlyRun q f 3 := by
  intro n
  induction n with
  | zero => rfl
  | succ m ih =>
    show handleAckTimeout (timeoutOnlyRun q f (m + 3)) q = _
    rw [ih, timeoutOnlyRun_three]
    rfl

end DLL

/-- C3: evaluation of the timeout-only lifecycle at the failing input
(seq 0, every copy lost).  On the third timer firing the retries
counter reaches `MAX_RETRIES = 3`, the entry is removed and
`frame_failed` is emitted with `retries = 3`, but only two
retransmissions ever happened: the frame crossed to the physical layer
3 times in total (1 original + 2 retries), not 4. -/
theorem c3_three_total_transmissions_not_four :
    (DLL.timeoutOnlyRun 0 [0x41] 3).pendingAcks = [] ∧
      (DLL.timeoutOnlyRun 0 [0x41] 3).events.getLast? =
        some (DLL.AckEvent.frameFailed 0 3) ∧
      (DLL.timeoutOnlyRun 0 [0x41] 2).pendingAcks = [(0, ⟨[0x41], 2⟩)] ∧
      DLL.totalTransmissions (DLL.timeoutOnlyRun 0 [0x41] 3) = 3 ∧
      DLL.totalTransmissions (DLL.timeoutOnlyRun 0 [0x41] 3) ≠ 4 ∧
      (∀ n : Nat, DLL.totalTransmissions (DLL.timeoutOnlyRun 0 [0x41] n) ≤ 3) := by
  refine ⟨by decide, by decide, by decide, by decide, by decide, ?_⟩
  intro n
  rcases n with _ | n
  · decide
  rcases n with _ | n
  · decide
  rcases n with _ | n
  · decide
  rw [show n + 1 + 1 + 1 = n + 3 by omega, DLL.timeoutOnlyRun_stable]
  decide

/-- C8 counterexample: a NAK for pending sequence number 5 leaves the
entry's `retries` counter at 0; it is not one higher than before. -/
theorem c8_nak_does_not_increment_retries :
    ((DLL.handleReceivedNak ⟨[(5, ⟨[0x41], 0⟩)], ⟨0, 0⟩, [], []⟩ 5).1.pendingAcks.lookup 5 =
        some ⟨[0x41], 0⟩) ∧
      ((DLL.handleReceivedNak ⟨[(5, ⟨[0x41], 0⟩)], ⟨0, 0⟩, [], []⟩ 5).1.pendingAcks.lookup 5 ≠
        some ⟨[0x41], 1⟩) ∧
      (DLL.handleReceivedNak ⟨[(5, ⟨[0x41], 0⟩)], ⟨0, 0⟩, [], []⟩ 5).1.transmissionsLog =
        [5] := by
  decide

/-- C8 (amended): a NAK whose sequence number is pending retransmits the
stored frame bytes immediately (one more retransmit-callback invocation
and `stats.retransmissions` one higher), but the pending entry -
including its `retries` counter - is unchanged; `retries` is only
incremented by timeouts. -/
theorem c8_nak_immediate_retransmission (s : DLL.AckState) (q : Nat) (p : DLL.AckEntry)
    (hp : s.pendingAcks.lookup q = some p) :
    (DLL.handleReceivedNak s q).2 = true ∧
      (DLL.handleReceivedNak s q).1.transmissionsLog = s.transmissionsLog ++ [q] ∧
      (DLL.handleReceivedNak s q).1.stats.retransmissions = s.stats.retransmissions + 1 ∧
      (DLL.handleReceivedNak s q).1.pendingAcks = s.pendingAcks := by
  simp only [DLL.handleReceivedNak, hp, DLL.retransmitFrame]
  exact ⟨trivial, trivial, trivial, trivial⟩

/-- Witness for C8 (amended) at a concrete single-entry state. -/
theorem c8_nak_immediate_retransmission_witness :
    (DLL.handleReceivedNak ⟨[(5, ⟨[0x41], 0⟩)], ⟨0, 0⟩, [], []⟩ 5).2 = true ∧
      (DLL.handleReceivedNak ⟨[(5, ⟨[0x41], 0⟩)], ⟨0, 0⟩, [], []⟩ 5).1.transmissionsLog =
        [] ++ [5] ∧
      (DLL.handleReceivedNak ⟨[(5, ⟨[0x41], 0⟩)], ⟨0, 0⟩, [], []⟩ 5).1.stats.retransmissions =
        0 + 1 ∧
      (DLL.handleReceivedNak ⟨[(5, ⟨[0x41], 0⟩)], ⟨0, 0⟩, [], []⟩ 5).1.pendingAcks =
        [(5, ⟨[0x41], 0⟩)] :=
  c8_nak_immediate_retransmission ⟨[(5, ⟨[0x41], 0⟩)], ⟨0, 0⟩, [], []⟩ 5 ⟨[0x41], 0⟩
    (by decide)

/-- C1: evaluation of the coordinator's ACK path at the failing input.
With DATA frames 0 and 1 pending and the send window at base 0, a
cumulative ACK for sequence number 1 slides the window from `oldBase =
0` to `newBase = 2`, yet the acknowledgment engine's pending map still
holds the entry for sequence number 0 - an already-acknowledged
sequence number inside `[oldBase, newBase)` whose entry (and timer)
survives the slide. -/
theorem c1_stale_pending_survives_slide :
    ((DLL.processAckFrame
        ⟨⟨[(0, ⟨[0xaa], 0⟩), (1, ⟨[0xbb], 0⟩)], ⟨0, 0⟩, [], []⟩,
          DLL.initialWindowState⟩ 1).2.windowSlid = true) ∧
      ((DLL.processAckFrame
        ⟨⟨[(0, ⟨[0xaa], 0⟩), (1, ⟨[0xbb], 0⟩)], ⟨0, 0⟩, [], []⟩,
          DLL.initialWindowState⟩ 1).2.oldBase = 0) ∧
      ((DLL.processAckFrame
        ⟨⟨[(0, ⟨[0xaa], 0⟩), (1, ⟨[0xbb], 0⟩)], ⟨0, 0⟩, [], []⟩,
          DLL.initialWindowState⟩ 1).2.newBase = 2) ∧
      (0 ≤ DLL.seqNumDiff 0 0 ∧ DLL.seqNumDiff 0 2 < 0) ∧
      ((DLL.processAckFrame
        ⟨⟨[(0, ⟨[0xaa], 0⟩), (1, ⟨[0xbb], 0⟩)], ⟨0, 0⟩, [], []⟩,
          DLL.initialWindowState⟩ 1).1.ackState.pendingAcks.lookup 0 =
        some ⟨[0xaa], 0⟩) ∧
      ((DLL.processAckFrame
        ⟨⟨[(0, ⟨[0xaa], 0⟩), (1, ⟨[0xbb], 0⟩)], ⟨0, 0⟩, [], []⟩,
          DLL.initialWindowState⟩ 1).1.ackState.pendingAcks.lookup 1 = none) := by
  decide

namespace DLL

/-! ### Connection manager (src/src/connection/connectionManager.js) -/

inductive ConnState where
  | DISCONNECTED
  | CONNECTING
  | CONNECTED
  | DISCONNECTING
deriving DecidableEq

structure ConnMgrState where
  state : ConnState
  localSeqNum : Nat
deriving DecidableEq

/-- The UTF-8 bytes of the text DISC_ACK. -/
def DISC_ACK_TEXT : List Nat := [0x44, 0x49, 0x53, 0x43, 0x5f, 0x41, 0x43, 0x4b]

structure DisconnectionResponse where
  txFrame : Option (List Nat)
  disconnectScheduled : Bool
deriving DecidableEq

/-- `ConnectionManager.handleDisconnection` (the transition scheduled
100 ms after answering a DISC), state field only. -/
def handleDisconnection (s : ConnMgrState) : ConnMgrState :=
  { s with state := ConnState.DISCONNECTED }

/-- `ConnectionManager.handleDisconnectionRequest`: in CONNECTED the
peer answers with `frameBuilder.createDataFrame(localSeqNum,
Buffer.from(..DISC_ACK.., utf8))` - a DATA frame carrying that text -
and schedules `handleDisconnection` 100 ms later. -/
def handleDisconnectionRequest (s : ConnMgrState) : ConnMgrState × DisconnectionResponse :=
  if s.state = ConnState.CONNECTED then
    (s, ⟨createDataFrame s.localSeqNum DISC_ACK_TEXT, true⟩)
  else
    (s, ⟨none, false⟩)

end DLL

/-- C9: evaluation at the failing input.  A peer in CONNECTED (local
sequence number 0) that receives a DISC frame transmits a response
whose control byte is DATA (`0x01`) carrying the text DISC_ACK as
payload - not a frame with control byte DISC_ACK (`0x07`) - and later
transitions to DISCONNECTED. -/
theorem c9_disc_reply_is_data_frame :
    ∃ f, (DLL.handleDisconnectionRequest ⟨DLL.ConnState.CONNECTED, 0⟩).2.txFrame = some f ∧
      (DLL.handleDisconnectionRequest ⟨DLL.ConnState.CONNECTED, 0⟩).2.disconnectScheduled =
        true ∧
      DLL.parseFrame f = .ok ⟨DLL.FrameType.DATA, 0, DLL.DISC_ACK_TEXT⟩ ∧
      DLL.FrameType.DATA ≠ DLL.FrameType.DISC_ACK ∧
      (DLL.handleDisconnection ⟨DLL.ConnState.CONNECTED, 0⟩).state =
        DLL.ConnState.DISCONNECTED := by
  refine ⟨(DLL.createDataFrame 0 DLL.DISC_ACK_TEXT).getD [], ?_, rfl, ?_, by decide, rfl⟩
  · rfl
  · rfl
